import Mathlib

/-!
Verification development for the pdf-parser-service repository.

We shallowly embed the content-extraction pipeline (`clean_html_response`),
the browser-acquisition control flow (`scrape_with_playwright`), the
`/scrape` response assembly and the `/parse` endpoint validation from
`src/app.py` as executable Lean definitions, and settle the specification
claims against them.

Modelling conventions:
* Python strings are Lean `String`s; all operations work over `toList`
  (code points), matching Python `len`, slicing and substring search.
* HTML documents are `Node` trees; the BeautifulSoup object is modelled
  as an element node with tag name `[document]`, exactly as bs4 names it.
* `tag.decompose()` is modelled as removal of the whole subtree.
* Effectful browser steps are resolved by an oracle environment `AcqEnv`;
  each field gives the outcome of one awaited call of the source.
-/

set_option maxRecDepth 100000
set_option maxHeartbeats 2000000

namespace PdfSvc

/-- Python `str.isspace`-style whitespace (the characters `\s` matches in
the ASCII range, which is what the repository's inputs use). -/
def pyIsSpace (c : Char) : Bool :=
  c = ' ' || c = '\t' || c = '\n' || c = '\r' || c = '\x0b' || c = '\x0c'

/-- Python `str.strip()` on code points. -/
def pyStrip (s : String) : String :=
  String.mk (((s.toList.dropWhile pyIsSpace).reverse.dropWhile pyIsSpace).reverse)

/-- Python `str.lower()`; ASCII plus the Swedish letters that occur in the
source's vocabularies. -/
def lowerChar (c : Char) : Char :=
  if c = 'Å' then 'å' else if c = 'Ä' then 'ä' else if c = 'Ö' then 'ö' else c.toLower

/-- Python `str.lower()` over a whole string. -/
def pyLower (s : String) : String := String.mk (s.toList.map lowerChar)

/-- Python list-prefix test on code points. -/
def listPrefixOf : List Char → List Char → Bool
  | [], _ => true
  | _ :: _, [] => false
  | a :: as, b :: bs => a = b && listPrefixOf as bs

/-- Leftmost match position of `pat` in a character list, as used by both
Python's `in` operator and `str.find`. -/
def findSubAux (pat : List Char) : List Char → Nat → Option Nat
  | [], i => if listPrefixOf pat [] then some i else none
  | c :: t, i => if listPrefixOf pat (c :: t) then some i else findSubAux pat t (i + 1)

/-- Python `pat in hay`. -/
def strContains (hay pat : String) : Bool := (findSubAux pat.toList hay.toList 0).isSome

/-- Python `hay.find(pat)` (`-1` when absent). -/
def pyFind (hay pat : String) : Int :=
  match findSubAux pat.toList hay.toList 0 with
  | some i => (i : Int)
  | none => -1

/-- Python `len` on a string (code points). -/
def pyLen (s : String) : Nat := s.toList.length

/-- Python slice `s[n:]` on code points. -/
def pyDrop (s : String) (n : Nat) : String := String.mk (s.toList.drop n)

/-- Python slice `s[:n]` on code points. -/
def pyTake (s : String) (n : Nat) : String := String.mk (s.toList.take n)

/-- Python `sep.join(parts)`. -/
def pyJoin (sep : String) : List String → String
  | [] => ""
  | [x] => x
  | x :: xs => x ++ sep ++ pyJoin sep xs

/-- Collapse every whitespace run to a single space, the substitution part
of `re.sub(r'\s+', ' ', s)`; the flag records whether the previous
character belonged to a whitespace run. -/
def collapseWsAux : Bool → List Char → List Char
  | _, [] => []
  | prevWs, c :: rest =>
    if pyIsSpace c then
      if prevWs then collapseWsAux true rest
      else ' ' :: collapseWsAux true rest
    else c :: collapseWsAux false rest

/-- Replace each maximal whitespace run by a single space. -/
def collapseWs (l : List Char) : List Char := collapseWsAux false l

/-- The source's final cleanup: `re.sub(r'\s+', ' ', content_text).strip()`. -/
def pyNormalize (s : String) : String := pyStrip (String.mk (collapseWs s.toList))

/-- A sentence-final character of the source's regex class `[.!?]`. -/
def isSentEnd (c : Char) : Bool := c = '.' || c = '!' || c = '?'

/-- Model of `re.split(r'(?<=[.!?])\s+', text)`: split after a sentence-final
character that is followed by whitespace, consuming the whitespace run.
The flag is true while consuming the whitespace run after a boundary. -/
def splitSentencesGo : List Char → List Char → Bool → List String
  | [], acc, _ => [String.mk acc.reverse]
  | c :: rest, acc, skip =>
    if skip && pyIsSpace c then splitSentencesGo rest acc true
    else if isSentEnd c && (match rest with | r :: _ => pyIsSpace r | [] => false) then
      String.mk (acc.reverse ++ [c]) :: splitSentencesGo rest [] true
    else
      splitSentencesGo rest (c :: acc) false

/-- Sentence splitting of the source's sentence-level filter. -/
def splitSentences (s : String) : List String := splitSentencesGo s.toList [] false

/-- Python `value.split()`-style whitespace tokenisation (bs4 splits the
`class` attribute into tokens with `nonwhitespace_re.findall`). -/
def splitTokensAux : List Char → List Char → List String
  | [], acc => if acc.isEmpty then [] else [String.mk acc.reverse]
  | c :: rest, acc =>
    if pyIsSpace c then
      if acc.isEmpty then splitTokensAux rest []
      else String.mk acc.reverse :: splitTokensAux rest []
    else splitTokensAux rest (c :: acc)

/-- Whitespace tokens of a string. -/
def splitTokens (s : String) : List String := splitTokensAux s.toList []

/-! ## The parsed HTML tree

bs4's parse tree: an element carries a tag name, attributes and children;
text nodes are leaves. The `BeautifulSoup` object itself is the element
with tag name `[document]`. -/

/-- A node of the parsed document tree. -/
inductive Node where
  | text : String → Node
  | elem : String → List (String × String) → List Node → Node
deriving Repr

/-- The soup for a list of top-level nodes. -/
def mkDoc (cs : List Node) : Node := Node.elem ("[document]") [] cs

/-- Tag name of a node (text nodes have none; bs4 gives them no `name`). -/
def nodeTag : Node → String
  | .text _ => ""
  | .elem t _ _ => t

/-- First value of an attribute, `none` when absent. -/
def nodeAttr : Node → String → Option String
  | .text _, _ => none
  | .elem _ attrs _, key => (attrs.find? (fun p => p.1 = key)).map (fun p => p.2)

/-- Model of `tag.get(key, '')`. -/
def nodeAttrD (n : Node) (key : String) : String := (nodeAttr n key).getD ("")

/-- The whitespace-separated tokens of the `class` attribute (bs4 stores
`class` as a multi-valued attribute). -/
def nodeClassTokens (n : Node) : List String :=
  match nodeAttr n ("class") with
  | none => []
  | some v => splitTokens v

/-- Model of `str(tag.get('class', ''))`: the Python `repr` of the token list when
the attribute is present, the empty string otherwise. -/
def classReprStr (n : Node) : String :=
  match nodeAttr n ("class") with
  | none => ""
  | some v =>
      "[" ++ pyJoin (", ") ((splitTokens v).map (fun t => "'" ++ t ++ "'")) ++ "]"

mutual

/-- The descendant strings of a node, in document order (bs4 `.strings`). -/
def Node.textPieces : Node → List String
  | .text s => [s]
  | .elem _ _ cs => textPiecesList cs

/-- Descendant strings of a node list, in document order. -/
def textPiecesList : List Node → List String
  | [] => []
  | n :: ns => n.textPieces ++ textPiecesList ns

end

/-- Model of `tag.get_text(separator=sep, strip=True)`: each descendant string is
stripped, empty results are skipped, the rest joined with `sep`. -/
def Node.getText (n : Node) (sep : String) : String :=
  pyJoin sep (((n.textPieces).map pyStrip).filter (fun s => !s.isEmpty))

/-- bs4 `Tag.string`: the single string below a chain of single children,
`none` otherwise (in particular for an empty element). -/
def Node.tagString : Node → Option String
  | .text s => some s
  | .elem _ _ [c] =>
      match c with
      | .text s => some s
      | .elem t a cs => Node.tagString (.elem t a cs)
  | .elem _ _ _ => none

mutual

/-- A node as an element together with its element descendants, in
pre-order (empty for a text node). -/
def Node.selfAndDescendants : Node → List Node
  | .text _ => []
  | .elem t a cs => Node.elem t a cs :: descendantsList cs

/-- All element descendants of the nodes of a list, in pre-order document
order — the search space of `soup.find_all`. -/
def descendantsList : List Node → List Node
  | [] => []
  | n :: ns => n.selfAndDescendants ++ descendantsList ns

end

/-- Element descendants of a node (the node itself excluded, as for
`soup.find_all`). -/
def Node.descendantElems : Node → List Node
  | .text _ => []
  | .elem _ _ cs => descendantsList cs

mutual

/-- Keep a non-matching node, pruning inside it. -/
def pruneNode (p : Node → Bool) : Node → Node
  | .text s => .text s
  | .elem t a cs => .elem t a (pruneList p cs)

/-- Remove every element node satisfying `p`, together with its whole
subtree — the model of `for element in soup.find_all(...): element.decompose()`. -/
def pruneList (p : Node → Bool) : List Node → List Node
  | [] => []
  | n :: ns =>
      match n with
      | .text s => Node.text s :: pruneList p ns
      | .elem t a cs =>
          if p (.elem t a cs) then pruneList p ns
          else pruneNode p (.elem t a cs) :: pruneList p ns

end

/-- Apply a removal pass below the soup object (the soup itself is never a
`find_all` result). -/
def pruneChildren (p : Node → Bool) : Node → Node
  | .text s => .text s
  | .elem t a cs => .elem t a (pruneList p cs)

/-- The policy/consent vocabulary of `clean_html_response`. -/
def policy_terms : List String :=
  ["cookie", "gdpr", "privacy", "policy", "villkor", "consent", "personuppgift",
   "integritet", "acceptera", "godkänn", "samtycke", "rättigheter",
   "accept", "allow", "datapolicy", "dataskydd"]

/-- Model of `any(term in s.lower() for term in policy_terms)`. -/
def hasPolicyTerm (s : String) : Bool :=
  policy_terms.any (fun t => strContains (pyLower s) t)

/-- Tags deleted outright by the first removal pass. -/
def removedTags : List String := ["script", "style", "footer", "iframe", "header", "nav"]

/-- The attribute vocabulary of the `non_content_selectors` list (each term
appears as `[id*=term]` and `[class*=term]`). -/
def nonContentAttrTerms : List String :=
  ["cookie", "consent", "gdpr", "privacy", "popup", "modal", "banner", "alert",
   "dialog", "notice", "overlay", "notification", "menu", "nav", "header",
   "footer", "sidebar", "aside"]

/-- Does an element match one of the `non_content_selectors`? CSS `*=` is a
case-sensitive substring test; `class` is matched per token (the terms
contain no whitespace, so this equals matching the space-joined value);
`[role=...]` is an exact match. -/
def selectorMatch (n : Node) : Bool :=
  nonContentAttrTerms.any (fun t =>
      strContains (nodeAttrD n ("id")) t
      || (nodeClassTokens n).any (fun tok => strContains tok t))
  || (match nodeAttr n ("role") with
      | some r => r = "banner" || r = "navigation" || r = "complementary" || r = "contentinfo"
      | none => false)
  || strContains (nodeAttrD n ("aria-label")) ("cookie")
  || strContains (nodeAttrD n ("aria-labelledby")) ("cookie")
  || strContains (nodeAttrD n ("data-testid")) ("cookie")
  || strContains (nodeAttrD n ("data-id")) ("cookie")

/-- The first attribute pass: a policy term occurs in
`(str(tag.get('id','')) + str(tag.get('class','')) + str(tag.get('title',''))).lower()`. -/
def attrPolicyMatch (n : Node) : Bool :=
  let s := pyLower (nodeAttrD n ("id") ++ classReprStr n ++ nodeAttrD n ("title"))
  policy_terms.any (fun t => strContains s t)

/-- The second text pass condition: the element has a direct string child
containing a policy term (such strings' parents are decomposed). -/
def policyTextPred : Node → Bool
  | .text _ => false
  | .elem _ _ cs =>
      cs.any (fun c => match c with | .text s => hasPolicyTerm s | _ => false)

/-- All four removal passes of `clean_html_response`, in source order. When
the soup itself has a direct string child with a policy term, the matching
string's parent is the soup, so the whole soup is decomposed (its contents
are cleared). -/
def cleanTree (root : Node) : Node :=
  let r0 := pruneChildren (fun n => removedTags.contains (nodeTag n)) root
  let r1 := pruneChildren selectorMatch r0
  let r2 := pruneChildren attrPolicyMatch r1
  if policyTextPred r2 then
    match r2 with
    | .elem t a _ => .elem t a []
    | x => x
  else pruneChildren policyTextPred r2

/-! ## Title, description and content extraction -/

/-- Model of `soup.find(tag)`: first element of that name in document order. -/
def findFirstTag (tag : String) (root : Node) : Option Node :=
  root.descendantElems.find? (fun n => nodeTag n = tag)

/-- Title extraction: prefer the first `h1`'s `get_text(strip=True)`; fall
back to `soup.title.string`, which is Python `None` (here `none`) when the
title element does not wrap a single string; `some ""` when neither tag is
present (the initial `title = ""`). bs4 tags are always truthy, so a found
empty `<title>` still takes the `elif` branch. -/
def extractTitle (root : Node) : Option String :=
  match findFirstTag ("h1") root with
  | some h1 => some (h1.getText (""))
  | none =>
      match findFirstTag ("title") root with
      | some t => t.tagString
      | none => some ("")

/-- Model of the lookup `soup.find('meta', attrs=...)` for `description` with the
`og:description` fallback of the source. -/
def findMetaDesc (root : Node) : Option Node :=
  match root.descendantElems.find?
      (fun n => nodeTag n = "meta" && nodeAttr n ("name") = some ("description")) with
  | some m => some m
  | none =>
      root.descendantElems.find?
        (fun n => nodeTag n = "meta" && nodeAttr n ("property") = some ("og:description"))

/-- Description extraction: the meta tag's `content` when present and
truthy, otherwise the initial `""`. -/
def extractDescription (root : Node) : String :=
  match findMetaDesc root with
  | some m => (match nodeAttr m ("content") with
      | some c => if c.isEmpty then ("") else c
      | none => "")
  | none => ""

/-- The `property_classes` priority list of content strategy 1. -/
def property_classes : List String :=
  ["property-info", "property-details", "listing-details", "object-info",
   "property-description", "estate-info", "listing-description", "main-content",
   "content-main", "article", "main", "content-area", "page-content"]

/-- The `class_` lambda of strategy 1: some class token contains the class
name, case-insensitively. -/
def hasClassLike (cls : String) (n : Node) : Bool :=
  (nodeClassTokens n).any (fun tok => strContains (pyLower tok) (pyLower cls))

/-- An element text qualifies as content: longer than 100 characters and
free of policy vocabulary. -/
def qualifies (t : String) : Bool := 100 < pyLen t && !hasPolicyTerm t

/-- First qualifying `get_text(separator=' ', strip=True)` among candidate
elements (the inner loop with `break` of strategies 1 and the semantic
fallback). -/
def firstQualifying : List Node → Option String
  | [] => none
  | e :: rest =>
      if qualifies (e.getText (" ")) then some (e.getText (" "))
      else firstQualifying rest

/-- Strategy 1 inner iteration over the class priority list. -/
def strat1Go (root : Node) : List String → Option String
  | [] => none
  | cls :: rest =>
      match firstQualifying (root.descendantElems.filter (hasClassLike cls)) with
      | some t => some t
      | none => strat1Go root rest

/-- Content strategy 1: property-specific class containers. -/
def strat1 (root : Node) : Option String := strat1Go root property_classes

/-- Semantic fallback of strategy 1: `main`, then `article` elements. -/
def stratSemantic (root : Node) : Option String :=
  match firstQualifying (root.descendantElems.filter (fun n => nodeTag n = "main")) with
  | some t => some t
  | none => firstQualifying (root.descendantElems.filter (fun n => nodeTag n = "article"))

/-- The transportation keyword list of strategy 2. -/
def transport_terms : List String :=
  ["kollektivt", "kommunikation", "pendel", "transport", "buss", "station"]

/-- The property-feature keyword list of strategy 2. -/
def feature_terms : List String :=
  ["parkering", "garage", "restaurang", "service", "hyresgäst"]

/-- Does a string contain one of the given keywords (lower-cased)? -/
def textMatchesAny (terms : List String) (s : String) : Bool :=
  terms.any (fun t => strContains (pyLower s) t)

mutual

/-- For every descendant string matching the keyword list, in string
document order, the string's parent element — the pairs walked by
`soup.find_all(string=...)` followed by `t.parent`. -/
def sectionParents (terms : List String) : Node → List Node
  | .text _ => []
  | .elem t a cs => sectionParentsList terms (.elem t a cs) cs

/-- Parents of matching strings within a child list whose parent is `par`. -/
def sectionParentsList (terms : List String) (par : Node) : List Node → List Node
  | [] => []
  | .text s :: ns =>
      (if textMatchesAny terms s then [par] else []) ++ sectionParentsList terms par ns
  | .elem t a cs :: ns =>
      sectionParentsList terms (.elem t a cs) cs ++ sectionParentsList terms par ns

end

/-- Strategy 2 section collection for one keyword list: parents whose
`get_text(strip=True)` exceeds 50 characters contribute their
`get_text(separator=' ', strip=True)`. -/
def sectionTexts (terms : List String) (root : Node) : List String :=
  (sectionParents terms root).filterMap (fun p =>
    if 50 < pyLen (p.getText ("")) then some (p.getText (" ")) else none)

/-- Strategy 2: transportation sections followed by feature sections. -/
def strat2 (root : Node) : List String :=
  sectionTexts transport_terms root ++ sectionTexts feature_terms root

/-- Strategy 3: all `p` elements whose `get_text(strip=True)` is longer
than 30 characters and policy-free. -/
def paragraphTexts (root : Node) : List String :=
  (root.descendantElems.filter (fun n => nodeTag n = "p")).filterMap (fun p =>
    let t := p.getText ("")
    if 30 < pyLen t && !hasPolicyTerm t then some t else none)

/-- The full strategy cascade assigning `content_text`, mirroring the
source's sequence of guarded assignments. -/
def contentAfterStrategies (root : Node) : String :=
  let c1 := (strat1 root).getD ("")
  let c2 := if c1.isEmpty then (stratSemantic root).getD ("") else c1
  let c3 :=
    if c2.isEmpty then
      (if (strat2 root).isEmpty then c2 else pyJoin (" ") (strat2 root))
    else c2
  if c3.isEmpty || pyLen c3 < 100 then
    (if (paragraphTexts root).isEmpty then c3 else pyJoin (" ") (paragraphTexts root))
  else c3

/-- The sentences kept by the sentence-level filter: longer than 10
characters and policy-free. -/
def retainedSentences (ct : String) : List String :=
  (splitSentences ct).filter (fun s => 10 < pyLen s && !hasPolicyTerm s)

/-- Sentence-level filtering (`if content_text:` guard, then split, filter,
rejoin with spaces). -/
def sentenceFilter (ct : String) : String :=
  if ct.isEmpty then ct else pyJoin (" ") (retainedSentences ct)

/-- The hard-coded truncation: when `"Kontorsfastighet"` occurs, only the
text from its first occurrence onwards is kept. -/
def kontorsCut (s : String) : String :=
  if strContains s ("Kontorsfastighet") then
    let i := pyFind s ("Kontorsfastighet")
    if 0 ≤ i then pyDrop s i.toNat else s
  else s

/-- The content pipeline after the removal passes: strategies, sentence
filter, truncation. -/
def contentBeforeNormalize (root : Node) : String :=
  kontorsCut (sentenceFilter (contentAfterStrategies root))

/-- The record returned by the extractor. `title` is an `Option` because
the Python function can place `None` in the `title` slot. -/
structure Extracted where
  title : Option String
  description : String
  content : String
deriving Repr, DecidableEq

/-- The content extractor `clean_html_response` of `src/app.py`. -/
def clean_html_response (doc : Node) : Extracted :=
  let root := cleanTree doc
  { title := extractTitle root
  , description := extractDescription root
  , content := pyNormalize (contentBeforeNormalize root) }

/-! ## The content-stabilization loop

`scrape_with_playwright` samples `document.body.innerHTML.length` up to 5
times: a sample within 100 bytes of the previous one (initially 0)
increments `stable_count`; reaching 2 breaks the loop; otherwise the
counter resets. -/

/-- Model of `abs(a - b)` for the Python ints of the stabilization check. -/
def absDiff (a b : Nat) : Nat := if b ≤ a then a - b else b - a

/-- The stabilization loop over the remaining samples, given the previous
size and the current `stable_count`; returns the number of checks
performed and whether the loop broke early. -/
def stabRun : List Nat → Nat → Nat → Nat × Bool
  | [], _, _ => (0, false)
  | s :: rest, prev, sc =>
      if absDiff s prev < 100 then
        if 2 ≤ sc + 1 then (1, true)
        else ((stabRun rest s (sc + 1)).1 + 1, (stabRun rest s (sc + 1)).2)
      else ((stabRun rest s 0).1 + 1, (stabRun rest s 0).2)

/-- The stabilization wait of the source: at most
`max_stabilize_checks = 5` samples, starting from `previous_content_size = 0`
and `stable_count = 0`. -/
def stabilizeOutcome (samples : List Nat) : Nat × Bool :=
  stabRun (samples.take 5) 0 0

/-! ## The acquisition function `scrape_with_playwright`

Each awaited browser call is resolved by an oracle environment. The
`finally:` block closes the browser whenever `browser` is not `None`,
i.e. whenever the launch call completed; every return below mirrors one
textual exit path of the source with that teardown applied. (The close
call itself is assumed not to raise.) -/

/-- Outcomes of the effectful steps of one acquisition. -/
structure AcqEnv where
  /-- Whether `find_chromium_executable()` succeeds (it raises `FileNotFoundError`
  otherwise, before the browser exists). -/
  findOk : Bool
  /-- Whether `playwright.chromium.launch(...)` returns a browser. In the source as
  written the name `playwright` is unbound, so at runtime this step always
  raises `NameError`; the oracle still models both outcomes of the written
  control flow. -/
  launchOk : Bool
  /-- Whether `new_context`, `add_cookies`, `new_page` and `set_default_timeout`
  complete without raising. -/
  setupOk : Bool
  /-- Outcome of `page.goto(url)`: `none` when it raises, `some none` when it returns
  no response object, `some (some s)` for a response with HTTP status `s`. -/
  goto : Option (Option Nat)
  /-- Whether `page.wait_for_load_state("networkidle")` completes before its
  timeout (when `false` it raises a timeout error). -/
  idleOk : Bool
  /-- The consent-button loop's waits and the 1s settle wait complete (the
  per-selector click failures are swallowed inside the loop and cannot
  escape it). -/
  settleOk : Bool
  /-- The `document.body.innerHTML.length` values the stabilization loop
  would observe. -/
  stabilizeSamples : List Nat
  /-- The scroll evaluation and the lazy-load wait complete. -/
  scrollOk : Bool
  /-- Result of `page.content()`: the parsed document, or `none` when it raises. -/
  html : Option Node
  /-- The degraded-branch screenshot and `page.evaluate` re-extraction:
  `none` when it raises, otherwise the string it returns (a `null` result
  behaves like `""` in the truthiness test and is modelled as `""`). -/
  fallback : Option String
  /-- Wall-clock seconds recorded as `scrape_time`. -/
  elapsed : Nat
  /-- Value of `datetime.now().isoformat()`. -/
  timestamp : String

/-- The metadata dict attached to a successful scrape. -/
structure ScrapeMeta where
  scrape_time : Nat
  url : String
  status_code : Nat
  timestamp : String
deriving Repr, DecidableEq

/-- Value returned by `scrape_with_playwright`: the cleaned data with
metadata, or an error dict. -/
inductive ScrapeResult where
  | ok : Extracted → ScrapeMeta → ScrapeResult
  | err : String → ScrapeResult
deriving Repr, DecidableEq

/-- Is the returned value an error dict? -/
def ScrapeResult.isErr : ScrapeResult → Bool
  | .err _ => true
  | .ok _ _ => false

/-- One acquisition run: its returned value, whether the browser was
launched, whether it was closed on the way out, how many fallback
re-extraction passes ran, and how many stabilization checks ran. -/
structure ScrapeOutcome where
  result : ScrapeResult
  launched : Bool
  closed : Bool
  fallbackRuns : Nat
  stabChecks : Nat
deriving Repr, DecidableEq

/-- The first-pass quality test of the orchestrator:
`content_text and len(content_text) < 200 or "cookie" in content_text.lower()[:100]`
(Python precedence: the conjunction binds first; an empty string makes the
first disjunct falsy). -/
def degradedCheck (ct : String) : Bool :=
  (!ct.isEmpty && pyLen ct < 200) || strContains (pyTake (pyLower ct) 100) ("cookie")

/-- The fallback acceptance test:
`if extracted_content and len(extracted_content) > 200`. -/
def fallbackAccepted (ex : String) : Bool := !ex.isEmpty && 200 < pyLen ex

/-- The acquisition function `scrape_with_playwright(url)` of `src/app.py`,
with every exit path written out (each carries the `finally:` teardown). -/
def scrape_with_playwright (url : String) (env : AcqEnv) : ScrapeOutcome :=
  if !env.findOk then
    { result := .err ("Chromium executable not found"), launched := false
    , closed := false, fallbackRuns := 0, stabChecks := 0 }
  else if !env.launchOk then
    { result := .err ("browser launch failed"), launched := false
    , closed := false, fallbackRuns := 0, stabChecks := 0 }
  else if !env.setupOk then
    { result := .err ("context setup failed"), launched := true
    , closed := true, fallbackRuns := 0, stabChecks := 0 }
  else
    match env.goto with
    | none =>
        { result := .err ("navigation failed"), launched := true
        , closed := true, fallbackRuns := 0, stabChecks := 0 }
    | some none =>
        { result := .err ("No response from page"), launched := true
        , closed := true, fallbackRuns := 0, stabChecks := 0 }
    | some (some status) =>
        if 400 ≤ status then
          { result := .err ("HTTP error: " ++ toString status), launched := true
          , closed := true, fallbackRuns := 0, stabChecks := 0 }
        else if !env.idleOk then
          { result := .err ("Timeout while waiting for networkidle"), launched := true
          , closed := true, fallbackRuns := 0, stabChecks := 0 }
        else if !env.settleOk then
          { result := .err ("page interaction failed"), launched := true
          , closed := true, fallbackRuns := 0, stabChecks := 0 }
        else
          let stab := (stabilizeOutcome env.stabilizeSamples).1
          if !env.scrollOk then
            { result := .err ("scroll evaluation failed"), launched := true
            , closed := true, fallbackRuns := 0, stabChecks := stab }
          else
            match env.html with
            | none =>
                { result := .err ("failed to read page content"), launched := true
                , closed := true, fallbackRuns := 0, stabChecks := stab }
            | some doc =>
                let cleaned := clean_html_response doc
                let meta : ScrapeMeta :=
                  { scrape_time := env.elapsed, url := url
                  , status_code := status, timestamp := env.timestamp }
                if degradedCheck cleaned.content then
                  match env.fallback with
                  | none =>
                      { result := .err ("alternative extraction failed"), launched := true
                      , closed := true, fallbackRuns := 1, stabChecks := stab }
                  | some ex =>
                      if fallbackAccepted ex then
                        { result := .ok { cleaned with content := ex } meta, launched := true
                        , closed := true, fallbackRuns := 1, stabChecks := stab }
                      else
                        { result := .ok cleaned meta, launched := true
                        , closed := true, fallbackRuns := 1, stabChecks := stab }
                else
                  { result := .ok cleaned meta, launched := true
                  , closed := true, fallbackRuns := 0, stabChecks := stab }

/-! ## Response shapes -/

/-- A JSON value, for stating response shapes. -/
inductive JVal where
  | s : String → JVal
  | n : Nat → JVal
  | null : JVal
  | obj : List (String × JVal) → JVal
deriving Repr

/-- The JSON object `jsonify` produces for a `scrape_with_playwright`
value; `extraMeta` is what the endpoint appends inside `metadata` (the
endpoint adds `total_request_time` only when a `metadata` key exists, so
error dicts are returned unchanged). -/
def resultJson (res : ScrapeResult) (extraMeta : List (String × JVal)) :
    List (String × JVal) :=
  match res with
  | .ok d m =>
      [(("title"), (match d.title with | some t => JVal.s t | none => JVal.null)),
       (("description"), JVal.s d.description),
       (("content"), JVal.s d.content),
       (("metadata"), JVal.obj
          ([(("scrape_time"), JVal.n m.scrape_time),
            (("url"), JVal.s m.url),
            (("status_code"), JVal.n m.status_code),
            (("timestamp"), JVal.s m.timestamp)] ++ extraMeta))]
  | .err e => [(("error"), JVal.s e)]

/-- Key list of a JSON object. -/
def jsonKeys (o : List (String × JVal)) : List String := o.map (fun p => p.1)

/-- Lookup in a JSON object. -/
def jsonGet (o : List (String × JVal)) (k : String) : Option JVal :=
  (o.find? (fun p => p.1 = k)).map (fun p => p.2)

/-! ## The `/parse` endpoint -/

/-- An uploaded file as the endpoint sees it. Werkzeug's `FileStorage` is
falsy exactly when its filename is empty; whether the payload is a PDF is
carried along to show the endpoint never inspects it. -/
structure PFile where
  filename : String
  isPdf : Bool
deriving Repr, DecidableEq

/-- Python falsiness of `request.files.get("file")`. -/
def fileFalsy : Option PFile → Bool
  | none => true
  | some f => f.filename.isEmpty

/-- Python falsiness of `request.form.get("space_id")`. -/
def formFalsy : Option String → Bool
  | none => true
  | some s => s.isEmpty

/-- Outcome of `file.save` under its 30s timeout guard. -/
inductive SaveStep where
  | ok : SaveStep
  | timedOut : SaveStep
  | failed : SaveStep
deriving Repr, DecidableEq

/-- Oracle for the effectful stages of `/parse`. -/
structure ParseEnv where
  /-- Saving the upload to the temp directory. -/
  save : SaveStep
  /-- Outcome of `parse_pdf_text` under its 120s guard: extracted text, or the error
  string recorded as `text_error` (a non-PDF upload makes `pdfplumber.open`
  raise, which lands here). -/
  textStep : Except String String
  /-- Image extraction and upload under the 180s guard: `ok none` when no
  images were found (no key added), `ok (some v)` for an upload result,
  `error e` for the inline `image_error`. -/
  imageStep : Except String (Option JVal)

/-- The `/parse` endpoint of `src/app.py`: HTTP status and JSON body. -/
def parse_endpoint (file : Option PFile) (space_id : Option String)
    (env : ParseEnv) : Nat × List (String × JVal) :=
  if fileFalsy file || formFalsy space_id then
    (400, [(("error"), JVal.s ("Missing file or space_id"))])
  else
    match env.save with
    | .timedOut => (504, [(("error"), JVal.s ("Request timed out"))])
    | .failed => (500, [(("error"), JVal.s ("failed to save upload"))])
    | .ok =>
        let textKV :=
          match env.textStep with
          | .ok t => [(("text"), JVal.s t)]
          | .error e => [(("text_error"), JVal.s e)]
        let imgKV :=
          match env.imageStep with
          | .ok none => []
          | .ok (some v) => [(("image_upload_result"), v)]
          | .error e => [(("image_error"), JVal.s e)]
        (200, [(("status"), JVal.s ("processing"))] ++ textKV ++ imgKV)

/-! ## Concrete fixtures -/

/-- A policy-free property description of 138 characters. -/
def markerText : String :=
  "Fin lokal med ljusa rum och stora fonster mot gatan. Har finns plats for flera arbetslag och ett stort gemensamt koksutrymme pa entreplan."

/-- A policy-free, keyword-free paragraph of 112 characters. -/
def paraText : String :=
  "Denna annons beskriver en lokal i centrala staden med narhet till torget och manga trevliga grannar runt hornet."

/-- A 130-character description whose second sentence starts with the
magic word `Kontorsfastighet`. -/
def kontorsText : String :=
  "Valkommen till oss har i huset pa berget dar allting ar mojligt. Kontorsfastighet med moderna ytor och ljust lage i centrala stan."

/-- The cookie-banner text of the policy-vocabulary fixture. -/
def bannerText : String :=
  "We use cookies to improve your experience. Accept all cookies."

/-- A short policy-free paragraph (47 characters), long enough for the
paragraph dump but below the 200-character quality bar. -/
def shortText : String :=
  "Har ar en liten beskrivning av lokalen i huset."

/-- No `h1`, and an empty `<title>` element. -/
def titleDoc : Node :=
  mkDoc [Node.elem ("html") []
    [Node.elem ("head") [] [Node.elem ("title") [] []], Node.elem ("body") [] []]]

/-- A page consisting solely of a cookie-consent banner. -/
def bannerDoc : Node :=
  mkDoc [Node.elem ("html") []
    [Node.elem ("body") []
      [Node.elem ("div") [(("class"), ("cookie-banner"))] [Node.text bannerText]]]]

/-- The end-to-end fixture of the spec: `<h1>Title</h1>` and one paragraph. -/
def specDoc : Node :=
  mkDoc [Node.elem ("html") []
    [Node.elem ("body") []
      [Node.elem ("h1") [] [Node.text ("Title")],
       Node.elem ("p") []
         [Node.text ("Some sufficiently long paragraph text without policy terms.")]]]]

/-- A `property-details` container with qualifying text, but inside a
`<footer>`; plus an unrelated paragraph. -/
def footerDoc : Node :=
  mkDoc [Node.elem ("html") []
    [Node.elem ("body") []
      [Node.elem ("footer") []
        [Node.elem ("div") [(("class"), ("property-details"))] [Node.text markerText]],
       Node.elem ("p") [] [Node.text paraText]]]]

/-- A surviving `property-details` container plus an unrelated paragraph. -/
def goodDoc : Node :=
  mkDoc [Node.elem ("html") []
    [Node.elem ("body") []
      [Node.elem ("div") [(("class"), ("property-details"))] [Node.text markerText],
       Node.elem ("p") [] [Node.text paraText]]]]

/-- A qualifying container whose text contains `Kontorsfastighet`. -/
def kontorsDoc : Node :=
  mkDoc [Node.elem ("html") []
    [Node.elem ("body") []
      [Node.elem ("div") [(("class"), ("property-details"))] [Node.text kontorsText]]]]

/-- A page with no extractable content at all. -/
def emptyDoc : Node :=
  mkDoc [Node.elem ("html") [] [Node.elem ("body") [] []]]

/-- A page whose only content is one short paragraph. -/
def shortDoc : Node :=
  mkDoc [Node.elem ("html") []
    [Node.elem ("body") [] [Node.elem ("p") [] [Node.text shortText]]]]

/-- An acquisition environment where every browser step succeeds. -/
def happyEnv (doc : Node) : AcqEnv :=
  { findOk := true, launchOk := true, setupOk := true, goto := some (some 200)
  , idleOk := true, settleOk := true, stabilizeSamples := [50, 60], scrollOk := true
  , html := some doc, fallback := some (""), elapsed := 7
  , timestamp := "2025-01-01T00:00:00" }

/-! ## Shared lemmas -/

/-- When a pattern occurs in a string, `str.find` does not return `-1`. -/
theorem strContains_find_nonneg (hay pat : String)
    (h : strContains hay pat = true) : 0 ≤ pyFind hay pat := by
  unfold strContains at h
  unfold pyFind
  cases hfd : findSubAux pat.toList hay.toList 0 with
  | none => rw [hfd] at h; simp at h
  | some i =>
      show (0 : Int) ≤ (i : Int)
      omega

/-- Strategy texts returned by the inner element loop pass the quality
test. -/
theorem firstQualifying_qualifies (l : List Node) (t : String)
    (h : firstQualifying l = some t) : qualifies t = true := by
  induction l with
  | nil => simp [firstQualifying] at h
  | cons e rest ih =>
    unfold firstQualifying at h
    split at h
    next hq => cases h; exact hq
    next => exact ih h

/-- Strategy-1 results pass the quality test. -/
theorem strat1Go_qualifies (root : Node) (cl : List String) (t : String)
    (h : strat1Go root cl = some t) : qualifies t = true := by
  induction cl with
  | nil => simp [strat1Go] at h
  | cons c rest ih =>
    unfold strat1Go at h
    split at h
    next ht => cases h; exact firstQualifying_qualifies _ _ ht
    next => exact ih h

/-! ## Claim C1 -/

/-- Claim C1, counterexample: on a document with no `h1` and an empty
`<title>` element, the extractor returns `None` — not a string — in the
`title` field (while the `title` tag is present and no `h1` is). -/
theorem claim1_counterexample :
    (clean_html_response titleDoc).title = none ∧
    (findFirstTag ("h1") (cleanTree titleDoc)).isSome = false ∧
    (findFirstTag ("title") (cleanTree titleDoc)).isSome = true := by decide

/-- Claim C1, amended: the extractor always terminates with a three-field
record whose `description` and `content` are strings, but `title` is
`None` exactly when no `h1` survives cleaning and the first surviving
`title` element does not wrap a single string (e.g. is empty). -/
theorem claim1_amended (doc : Node) :
    (clean_html_response doc).title = none ↔
      (findFirstTag ("h1") (cleanTree doc) = none ∧
       ∃ t, findFirstTag ("title") (cleanTree doc) = some t ∧ t.tagString = none) := by
  simp only [clean_html_response, extractTitle]
  cases h1 : findFirstTag ("h1") (cleanTree doc) with
  | some h => simp [h1]
  | none =>
    cases ht : findFirstTag ("title") (cleanTree doc) with
    | some t => simp [ht]
    | none => simp [ht]

/-! ## Claim C5 -/

/-- Claim C5: every sentence retained by the sentence-level filter is
longer than 10 characters and contains no policy-vocabulary term
(case-insensitive substring); and on a fixture consisting only of a
cookie-consent banner the extracted content is empty — never the banner
text. -/
theorem claim5_sentences :
    (∀ ct s, s ∈ retainedSentences ct → 10 < pyLen s ∧ hasPolicyTerm s = false) ∧
    (clean_html_response bannerDoc).content = "" ∧
    (clean_html_response bannerDoc).content ≠ bannerText := by
  refine ⟨?_, by decide, by decide⟩
  intro ct s hs
  unfold retainedSentences at hs
  rw [List.mem_filter] at hs
  rcases hs with ⟨_, hp⟩
  rw [Bool.and_eq_true] at hp
  rcases hp with ⟨h1, h2⟩
  exact ⟨of_decide_eq_true h1, by simpa using h2⟩

/-- Claim C5, witness: the filter keeps a concrete 22-character policy-free
sentence, and that sentence indeed satisfies both retained-sentence
properties. -/
theorem claim5_sentences_witness :
    10 < pyLen ("Hello there my friend.") ∧
    hasPolicyTerm ("Hello there my friend.") = false :=
  claim5_sentences.1 ("Hello there my friend.") ("Hello there my friend.") (by decide)

/-! ## Claim C2 -/

/-- Claim C2: on every exit path of `scrape_with_playwright` — success,
early error return, or an exception at any step after launch — a browser
that was launched is closed before the result is returned. -/
theorem claim2_teardown (url : String) (env : AcqEnv)
    (h : (scrape_with_playwright url env).launched = true) :
    (scrape_with_playwright url env).closed = true := by
  have key : (scrape_with_playwright url env).closed =
      (scrape_with_playwright url env).launched := by
    simp only [scrape_with_playwright]
    repeat' split
    all_goals rfl
  rw [key, h]

/-- Claim C2, witness: a fully successful acquisition launches the browser
and closes it. -/
theorem claim2_teardown_witness :
    (scrape_with_playwright ("https://example.com") (happyEnv specDoc)).launched = true ∧
    (scrape_with_playwright ("https://example.com") (happyEnv specDoc)).closed = true :=
  ⟨by decide, claim2_teardown ("https://example.com") (happyEnv specDoc) (by decide)⟩

/-! ## Claim C3 -/

/-- Claim C3, counterexample: a first pass whose extracted content is
entirely empty is not treated as degraded — the orchestrator runs no
fallback pass and returns the empty first-pass result directly. -/
theorem claim3_counterexample :
    (clean_html_response emptyDoc).content = "" ∧
    (scrape_with_playwright ("https://example.com") (happyEnv emptyDoc)).fallbackRuns = 0 ∧
    (scrape_with_playwright ("https://example.com") (happyEnv emptyDoc)).result =
      .ok (clean_html_response emptyDoc)
        { scrape_time := 7, url := "https://example.com", status_code := 200
        , timestamp := "2025-01-01T00:00:00" } := by decide

/-- Claim C3, amended: at most one fallback pass ever runs; on a capture
that reaches extraction, the fallback runs exactly when the first-pass
content is non-empty and shorter than 200 characters, or contains
`"cookie"` in its first 100 lower-cased characters (empty content triggers
no fallback); and when the fallback returns insufficient content the
original degraded content is kept rather than failing the request. -/
theorem claim3_amended (url : String) (env : AcqEnv) (doc : Node) (st : Nat)
    (hf : env.findOk = true) (hl : env.launchOk = true) (hsu : env.setupOk = true)
    (hg : env.goto = some (some st)) (hst : st < 400)
    (hi : env.idleOk = true) (hse : env.settleOk = true) (hsc : env.scrollOk = true)
    (hh : env.html = some doc) :
    (∀ url' env', (scrape_with_playwright url' env').fallbackRuns ≤ 1) ∧
    (scrape_with_playwright url env).fallbackRuns =
      (if degradedCheck (clean_html_response doc).content then 1 else 0) ∧
    (∀ ex, env.fallback = some ex → fallbackAccepted ex = false →
      (scrape_with_playwright url env).result =
        .ok (clean_html_response doc)
          { scrape_time := env.elapsed, url := url, status_code := st
          , timestamp := env.timestamp }) := by
  have h400 : ¬ (400 ≤ st) := by omega
  refine ⟨?_, ?_, ?_⟩
  · intro url' env'
    simp only [scrape_with_playwright]
    repeat' split
    all_goals simp
  · simp only [scrape_with_playwright, hf, hl, hsu, hg, hi, hse, hsc, hh,
      Bool.not_true, Bool.false_eq_true, if_false, h400]
    by_cases hd : degradedCheck (clean_html_response doc).content = true
    · simp only [hd, if_true]
      cases hfb : env.fallback with
      | none => simp [hfb]
      | some ex => by_cases ha : fallbackAccepted ex = true <;> simp [hfb, ha]
    · simp only [Bool.not_eq_true] at hd
      simp [hd]
  · intro ex hex hac
    simp only [scrape_with_playwright, hf, hl, hsu, hg, hi, hse, hsc, hh, hex,
      Bool.not_true, Bool.false_eq_true, if_false, h400]
    by_cases hd : degradedCheck (clean_html_response doc).content = true
    · simp [hd, hac]
    · simp only [Bool.not_eq_true] at hd
      simp [hd]

/-- Claim C3, witness: a short (47-character) first pass is degraded; the
fallback runs once, its empty result is rejected, and the original content
is returned. -/
theorem claim3_amended_witness :
    (scrape_with_playwright ("https://example.com") (happyEnv shortDoc)).fallbackRuns =
      (if degradedCheck (clean_html_response shortDoc).content then 1 else 0) ∧
    (scrape_with_playwright ("https://example.com") (happyEnv shortDoc)).result =
      .ok (clean_html_response shortDoc)
        { scrape_time := 7, url := "https://example.com", status_code := 200
        , timestamp := "2025-01-01T00:00:00" } := by
  have h := claim3_amended ("https://example.com") (happyEnv shortDoc) shortDoc 200
    rfl rfl rfl rfl (by omega) rfl rfl rfl rfl
  exact ⟨h.2.1, h.2.2 ("") rfl rfl⟩

/-! ## Claim C4 -/

/-- Claim C4, counterexample: an acquisition in which navigation succeeded
with status 200 but the network-quiet wait timed out fails with an error
instead of proceeding with the content that is present. -/
theorem claim4_counterexample :
    ((scrape_with_playwright ("https://example.com")
        { happyEnv emptyDoc with idleOk := false }).result).isErr = true ∧
    ({ happyEnv emptyDoc with idleOk := false } : AcqEnv).goto = some (some 200) ∧
    ({ happyEnv emptyDoc with idleOk := false } : AcqEnv).idleOk = false := by decide

/-- Claim C4, amended: expiry of the `networkidle` wait is fatal — the
raised timeout escapes to the outer handler and the acquisition returns an
error (after closing the browser) instead of proceeding to consent
handling and capture. -/
theorem claim4_amended (url : String) (env : AcqEnv) (st : Nat)
    (hf : env.findOk = true) (hl : env.launchOk = true) (hsu : env.setupOk = true)
    (hg : env.goto = some (some st)) (hst : st < 400) (hi : env.idleOk = false) :
    (scrape_with_playwright url env).result =
      .err ("Timeout while waiting for networkidle") ∧
    (scrape_with_playwright url env).closed = true := by
  have h400 : ¬ (400 ≤ st) := by omega
  simp [scrape_with_playwright, hf, hl, hsu, hg, hi, h400]

/-- Claim C4, witness: the amended statement at a concrete environment. -/
theorem claim4_amended_witness :
    (scrape_with_playwright ("https://example.com")
        { happyEnv emptyDoc with idleOk := false }).result =
      .err ("Timeout while waiting for networkidle") ∧
    (scrape_with_playwright ("https://example.com")
        { happyEnv emptyDoc with idleOk := false }).closed = true :=
  claim4_amended ("https://example.com") { happyEnv emptyDoc with idleOk := false }
    200 rfl rfl rfl rfl (by omega) rfl

/-! ## Claim C6 -/

/-- Claim C6, counterexample: a document that does contain a
`property-details` element with qualifying policy-free text longer than
100 characters (inside a `footer`) together with an unrelated paragraph,
for which the extractor returns the paragraph text, not the marker
element's text — the marker element was deleted by the structural-removal
pass before the priority cascade ran. -/
theorem claim6_counterexample :
    (clean_html_response footerDoc).content = paraText ∧
    paraText ≠ markerText ∧
    qualifies markerText = true := by decide

/-- Claim C6, amended: the strategy cascade is tried in the fixed priority
order and whenever strategy 1 (domain-marker classes) produces a result,
that result is the selected content — the paragraph dump is never
consulted; this holds for marker elements that survive the removal passes,
as on the `goodDoc` fixture. -/
theorem claim6_amended :
    (∀ root t, strat1 root = some t → contentAfterStrategies root = t) ∧
    (clean_html_response goodDoc).content = markerText ∧
    (clean_html_response goodDoc).content ≠ paraText := by
  refine ⟨?_, by decide, by decide⟩
  intro root t h
  have hq : qualifies t = true := strat1Go_qualifies root property_classes t h
  have hlen : 100 < pyLen t := by
    unfold qualifies at hq
    rw [Bool.and_eq_true] at hq
    exact of_decide_eq_true hq.1
  have hne : t.isEmpty = false := by
    cases hb : t.isEmpty
    · rfl
    · rw [String.isEmpty_iff] at hb
      subst hb
      simp [pyLen] at hlen
  have hnl : ¬ (pyLen t < 100) := by omega
  simp [contentAfterStrategies, h, hne, hnl]

/-- Claim C6, witness: strategy 1 succeeds on the cleaned `goodDoc` and the
cascade selects exactly its text. -/
theorem claim6_amended_witness :
    contentAfterStrategies (cleanTree goodDoc) = markerText :=
  claim6_amended.1 (cleanTree goodDoc) markerText (by decide)

/-! ## Claim C7 -/

/-- Claim C7, counterexample: a successful scrape of the spec's own fixture
page returns the extracted record at the top level — there is no `success`
field and no `data` wrapper; `title` is a top-level key. -/
theorem claim7_counterexample :
    (("success") ∉ jsonKeys (resultJson
        (scrape_with_playwright ("https://example.com") (happyEnv specDoc)).result [])) ∧
    (("data") ∉ jsonKeys (resultJson
        (scrape_with_playwright ("https://example.com") (happyEnv specDoc)).result [])) ∧
    jsonKeys (resultJson
        (scrape_with_playwright ("https://example.com") (happyEnv specDoc)).result []) =
      [("title"), ("description"), ("content"), ("metadata")] ∧
    (scrape_with_playwright ("https://example.com") (happyEnv specDoc)).result =
      .ok { title := some ("Title"), description := "", content := "" }
        { scrape_time := 7, url := "https://example.com", status_code := 200
        , timestamp := "2025-01-01T00:00:00" } := by decide

/-- Claim C7, amended: every successful scrape response is the extracted
record itself with `title`, `description`, `content` and a `metadata`
object (carrying `scrape_time`, `url`, `status_code`, `timestamp` plus
whatever the endpoint appends) at the top level — no `success` flag and no
`data` nesting; failures carry a single `error` string field. -/
theorem claim7_amended (url : String) (env : AcqEnv) (extra : List (String × JVal)) :
    (∃ d m, (scrape_with_playwright url env).result = .ok d m ∧
      jsonKeys (resultJson (.ok d m) extra) =
        [("title"), ("description"), ("content"), ("metadata")] ∧
      jsonGet (resultJson (.ok d m) extra) ("metadata") = some (JVal.obj
        ([(("scrape_time"), JVal.n m.scrape_time), (("url"), JVal.s m.url),
          (("status_code"), JVal.n m.status_code),
          (("timestamp"), JVal.s m.timestamp)] ++ extra)) ∧
      jsonGet (resultJson (.ok d m) extra) ("title") =
        some (match d.title with | some t => JVal.s t | none => JVal.null)) ∨
    (∃ e, (scrape_with_playwright url env).result = .err e ∧
      resultJson (.err e) extra = [(("error"), JVal.s e)]) := by
  cases hr : (scrape_with_playwright url env).result with
  | ok d m => exact Or.inl ⟨d, m, rfl, rfl, rfl, rfl⟩
  | err e => exact Or.inr ⟨e, rfl, rfl⟩

/-! ## Claim C8 -/

/-- Claim C8, counterexample: a sample sequence in which two consecutive
samples differ by fewer than 100 bytes (the second and first both read
1000), yet the loop does not stop early — it performs all five checks,
because a break requires two consecutive stable checks. -/
theorem claim8_counterexample :
    stabilizeOutcome [1000, 1000, 5000, 5000, 9000] = (5, false) ∧
    absDiff 1000 1000 < 100 ∧
    (scrape_with_playwright ("https://example.com")
      { happyEnv emptyDoc with
          stabilizeSamples := [1000, 1000, 5000, 5000, 9000] }).stabChecks = 5 := by decide

/-- Claim C8, amended: the loop samples at most 5 times and stops early
exactly when two consecutive checks each observe a difference of fewer
than 100 bytes (the first check comparing against an initial size of 0);
otherwise it exhausts the budget of 5 checks and proceeds regardless. -/
theorem claim8_amended (a b c d e : Nat) :
    ((stabilizeOutcome [a, b, c, d, e]).2 = true ↔
      ((absDiff a 0 < 100 ∧ absDiff b a < 100) ∨
       (absDiff b a < 100 ∧ absDiff c b < 100) ∨
       (absDiff c b < 100 ∧ absDiff d c < 100) ∨
       (absDiff d c < 100 ∧ absDiff e d < 100))) ∧
    ((stabilizeOutcome [a, b, c, d, e]).2 = false →
      (stabilizeOutcome [a, b, c, d, e]).1 = 5) ∧
    (stabilizeOutcome [a, b, c, d, e]).1 ≤ 5 := by
  by_cases h1 : absDiff a 0 < 100 <;>
    by_cases h2 : absDiff b a < 100 <;>
    by_cases h3 : absDiff c b < 100 <;>
    by_cases h4 : absDiff d c < 100 <;>
    by_cases h5 : absDiff e d < 100 <;>
    norm_num [stabilizeOutcome, stabRun, h1, h2, h3, h4, h5]

/-- Claim C8, witness: five identical samples break the loop early. -/
theorem claim8_amended_witness :
    (stabilizeOutcome [0, 0, 0, 0, 0]).2 = true :=
  (claim8_amended 0 0 0 0 0).1.mpr (Or.inl ⟨by decide, by decide⟩)

/-! ## Claim C9 -/

/-- Claim C9, counterexample: a non-PDF upload with both fields present is
not rejected with 400 — text extraction fails inline and the endpoint
returns 200 with a `text_error` field. -/
theorem claim9_counterexample :
    (parse_endpoint (some { filename := "doc.txt", isPdf := false }) (some ("123"))
        { save := .ok, textStep := .error ("not a pdf"), imageStep := .ok none }).1 = 200 ∧
    jsonKeys (parse_endpoint (some { filename := "doc.txt", isPdf := false }) (some ("123"))
        { save := .ok, textStep := .error ("not a pdf"), imageStep := .ok none }).2 =
      [("status"), ("text_error")] := by decide

/-- Claim C9, amended: `/parse` returns 400 (with an error body, before any
parsing work) exactly when the `file` field or the `space_id` field is
missing or falsy; no PDF-type validation exists, so a non-PDF upload is
not rejected with 400. -/
theorem claim9_amended (file : Option PFile) (sid : Option String) (env : ParseEnv) :
    ((parse_endpoint file sid env).1 = 400 ↔
      (fileFalsy file = true ∨ formFalsy sid = true)) ∧
    ((fileFalsy file = true ∨ formFalsy sid = true) →
      parse_endpoint file sid env =
        (400, [(("error"), JVal.s ("Missing file or space_id"))])) := by
  cases hb : (fileFalsy file || formFalsy sid) with
  | true =>
      refine ⟨⟨fun _ => by simpa using hb, fun _ => ?_⟩, fun _ => ?_⟩ <;>
        simp [parse_endpoint, hb]
  | false =>
      have h1 : ¬ (fileFalsy file = true ∨ formFalsy sid = true) := by
        simpa using hb
      refine ⟨⟨fun habs => ?_, fun hor => absurd hor h1⟩, fun hor => absurd hor h1⟩
      rw [parse_endpoint] at habs
      simp only [hb, Bool.false_eq_true, if_false] at habs
      cases hsave : env.save <;> rw [hsave] at habs <;> simp at habs

/-- Claim C9, witness: a request with no file at all is rejected with 400
and the error body. -/
theorem claim9_amended_witness :
    parse_endpoint none (some ("123"))
        { save := .ok, textStep := .ok ("t"), imageStep := .ok none } =
      (400, [(("error"), JVal.s ("Missing file or space_id"))]) :=
  (claim9_amended none (some ("123"))
      { save := .ok, textStep := .ok ("t"), imageStep := .ok none }).2
    (Or.inl (by decide))

/-! ## Claim C10 -/

/-- Claim C10: whenever the selected (sentence-filtered) content contains
the literal string `Kontorsfastighet`, the returned content is the
(whitespace-normalized) text from its first occurrence onwards — the text
before it is discarded. -/
theorem claim10_kontors (doc : Node)
    (h : strContains (sentenceFilter (contentAfterStrategies (cleanTree doc)))
           ("Kontorsfastighet") = true) :
    (clean_html_response doc).content =
      pyNormalize (pyDrop (sentenceFilter (contentAfterStrategies (cleanTree doc)))
        ((pyFind (sentenceFilter (contentAfterStrategies (cleanTree doc)))
            ("Kontorsfastighet")).toNat)) := by
  have h0 := strContains_find_nonneg _ _ h
  simp only [clean_html_response, contentBeforeNormalize, kontorsCut, h, if_true, if_pos h0]

/-- Claim C10, witness: on the `kontorsDoc` fixture the selected content
contains the magic string and the returned content is the suffix from its
first occurrence. -/
theorem claim10_kontors_witness :
    strContains (sentenceFilter (contentAfterStrategies (cleanTree kontorsDoc)))
        ("Kontorsfastighet") = true ∧
    (clean_html_response kontorsDoc).content =
      pyNormalize (pyDrop (sentenceFilter (contentAfterStrategies (cleanTree kontorsDoc)))
        ((pyFind (sentenceFilter (contentAfterStrategies (cleanTree kontorsDoc)))
            ("Kontorsfastighet")).toNat)) :=
  ⟨by decide, claim10_kontors kontorsDoc (by decide)⟩

end PdfSvc
